import Mathlib

/-!
# Verification of `chimedb.dataflag` (opinion/flag voting subsystem)

Shallow embedding of the tables defined in `chimedb/dataflag/orm.py` and of the
operations `DataFlag.create_flag`, `DataFlagOpinion.create_opinion` (orm.py) and
`VotingJudge.__init__` / `VotingJudge.hypnotoad_vote` /
`VotingJudge._translate_single_opinion` (vote.py).

Conventions of the embedding:
* The relational store is a `State` holding the rows of every table.
* Times (`DoubleField` / `FloatField` Unix timestamps) are modelled as `Int`.
* Python exceptions are constructors of `Err`; a fallible operation returns
  `Except Err α` (paired with the resulting `State` when it can write before
  failing).
* Python dynamic values passed to validation code (`decision`, `freq`,
  `inputs`, `metadata` arguments) are modelled by the inductive `Py`.
* External code (the `ch_util.ephemeris.csd_to_unix` conversion and the
  package version string) is packed into an `Env` parameter.
-/

/-- Python exception classes that the embedded code can raise, plus the two
error names used by the specification's error taxonomy (`UnknownModeError`,
`InvalidConfigurationError`), which are distinct classes from the builtins the
code actually raises. -/
inductive Err where
  | validationError
  | valueError
  | doesNotExist
  | integrityError
  | runtimeError
  | userWarning
  | attributeError
  | indexError
  | keyError
  | unknownModeError
  | invalidConfigurationError
deriving DecidableEq, Repr

/-- Python values, as far as the validation code inspects them
(`isinstance(x, list)`, `isinstance(x, dict)`, `isinstance(x, str)`,
`x is not None`). -/
inductive Py where
  | pyNone
  | pyBool (b : Bool)
  | pyInt (n : Int)
  | pyStr (s : String)
  | pyList (xs : List Py)
  | pyDict (kvs : List (String × Py))

/-- `x is None`. -/
def Py.isNone : Py → Bool
  | .pyNone => true
  | _ => false

/-- `isinstance(x, list)`. -/
def Py.isList : Py → Bool
  | .pyList _ => true
  | _ => false

/-- `isinstance(x, dict)`. -/
def Py.isDict : Py → Bool
  | .pyDict _ => true
  | _ => false

/-- A row of the `DataFlagClient` table (orm.py): client software name and
version. -/
structure ClientRow where
  id : Nat
  client_name : String
  client_version : String
deriving DecidableEq, Repr

/-- A row of the `DataFlag` table (orm.py): type (by name), start/finish Unix
times (finish nullable) and the JSON metadata dict. -/
structure FlagRow where
  id : Nat
  ftype : String
  start_time : Int
  finish_time : Option Int
  metadata : List (String × Py)

/-- A row of the `DataFlagOpinion` table (orm.py).  Note: the table has *no*
`freq`, `instrument` or `inputs` columns and the model class defines no such
attributes (it subclasses the plain `base_model`, not `DataSubset`). -/
structure OpinionRow where
  id : Nat
  otype : String
  user : String
  decision : String
  creation_time : Int
  last_edit : Int
  client : Nat
  revision : String
  lsd : Int
  notes : Option String
deriving DecidableEq, Repr

/-- A row of the `DataFlagVote` table (orm.py): time, mode, client, revision,
nullable flag reference and LSD. -/
structure VoteRow where
  id : Nat
  time : Int
  mode : String
  client : Nat
  revision : String
  flag : Option Nat
  lsd : Int
deriving DecidableEq, Repr

/-- The relational store: one list of rows per table touched by the embedded
code.  Catalog tables (`DataRevision`, `DataFlagType`, `DataFlagOpinionType`,
`MediaWikiUser`) are represented by their unique name columns. -/
structure State where
  revisions : List String
  flagTypes : List String
  opinionTypes : List String
  users : List String
  clients : List ClientRow
  flags : List FlagRow
  opinions : List OpinionRow
  votes : List VoteRow
  voteOpinions : List (Nat × Nat)

/-- External collaborators of the voting code: `ch_util.ephemeris.csd_to_unix`
(sidereal-day index to Unix time) and the package `__version__` string. -/
structure Env where
  csdToUnix : Int → Int
  version : String

/-- `DataFlagVote.max_len_mode_name` (orm.py line 245). -/
def max_len_mode_name : Nat := 32

/-- `EnumField(["good", "bad", "unsure"])` — the decision enum (orm.py line
292). -/
def decision_enum_list : List String := ["good", "bad", "unsure"]

/-- `VotingJudge.max_vote_time` (vote.py line 42): the grace window subtracted
from the last vote time. -/
def max_vote_time : Int := 60

/-- `VotingJudge.mode_choices` (vote.py lines 114-115): keys of the `_modes`
dispatch dict. -/
def mode_choices : List String := ["hypnotoad"]

/-- `DataFlagClient.get_or_create(client_name=..., client_version=...)`:
returns the id of the matching client row, creating one when absent. -/
def getOrCreateClient (cn cv : String) (s : State) : Nat × State :=
  match s.clients.find? (fun c => c.client_name == cn && c.client_version == cv) with
  | some c => (c.id, s)
  | none =>
      let c : ClientRow := { id := s.clients.length, client_name := cn, client_version := cv }
      (c.id, { s with clients := s.clients ++ [c] })

/-- `DataFlagVote.select(pw.fn.MAX(DataFlagVote.time)).scalar()` (vote.py line
51): the maximum `time` over *all* vote rows, `none` when the table is empty.
Note that the query is not filtered by mode (nor by revision). -/
def lastVoteTime : List VoteRow → Option Int
  | [] => none
  | v :: vs =>
      match lastVoteTime vs with
      | none => some v.time
      | some m => some (max v.time m)

/-- vote.py lines 54-57: `if last_vote_time: last_vote_time -= 60 else:
last_vote_time = 0`.  A stored maximum of exactly `0` is falsy in Python, so
it is replaced by `0` without subtracting the grace window. -/
def lowWaterMark (votes : List VoteRow) : Int :=
  match lastVoteTime votes with
  | none => 0
  | some t => if t = 0 then 0 else t - max_vote_time

/-- vote.py lines 60-63: the candidate set — all opinions with
`last_edit >= last_vote_time` and `revision == self.revision` (these two
conditions are correctly combined with the peewee `&` operator). -/
def newOpinions (s : State) (rev : String) : List OpinionRow :=
  s.opinions.filter (fun o =>
    decide (lowWaterMark s.votes ≤ o.last_edit) && decide (o.revision = rev))

/-- vote.py lines 68-75: the disagreement query for one candidate.  The two
conditions are combined with the Python `and` keyword, not with peewee's `&`:
a peewee expression object is always truthy, so
`A and B` evaluates to `B` and the effective WHERE clause is only
`DataFlagOpinion.lsd == opinion.lsd`.  The count therefore includes opinions
of every decision and every revision — including the candidate row itself. -/
def moreOpinions (s : State) (o : OpinionRow) : Nat :=
  (s.opinions.filter (fun p => decide (p.lsd = o.lsd))).length

/-- `VotingJudge._translate_single_opinion` (vote.py lines 83-110).  For a
"bad" decision the code evaluates `opinion.freq` (line 94) to build the flag —
but `DataFlagOpinion` defines no `freq` attribute, so this raises
`AttributeError`.  For "good"/"unsure" no flag is made; a `DataFlagVote` row
(with `flag=None`) and a `DataFlagVoteOpinion` row are created. -/
def translateSingleOpinion (env : Env) (mode rev : String) (timestamp : Int)
    (o : OpinionRow) (s : State) : Except Err (Option Nat × State) :=
  if o.decision == "bad" then
    -- start_time = csd_to_unix(opinion.lsd); finish_time = csd_to_unix(opinion.lsd + 1)
    -- then `opinion.freq` raises AttributeError: no such column/attribute.
    .error .attributeError
  else
    let (clientId, s1) := getOrCreateClient "chimedb.dataflag.vote" env.version s
    let vote : VoteRow :=
      { id := s1.votes.length, time := timestamp, mode := mode, client := clientId,
        revision := rev, flag := none, lsd := o.lsd }
    let s2 := { s1 with votes := s1.votes ++ [vote] }
    let s3 := { s2 with voteOpinions := s2.voteOpinions ++ [(vote.id, o.id)] }
    .ok (none, s3)

/-- The `for opinion in new_opinions` loop of `hypnotoad_vote` (vote.py lines
65-81): skip a candidate when `more_opinions` is nonzero, otherwise translate
it and append the returned flag (possibly `None`) to the result list. -/
def hypnotoadLoop (env : Env) (mode rev : String) (timestamp : Int) :
    List OpinionRow → List (Option Nat) → State → Except Err (List (Option Nat) × State)
  | [], acc, s => .ok (acc.reverse, s)
  | o :: rest, acc, s =>
      if moreOpinions s o ≠ 0 then
        hypnotoadLoop env mode rev timestamp rest acc s
      else
        match translateSingleOpinion env mode rev timestamp o s with
        | .error e => .error e
        | .ok (flag, s') => hypnotoadLoop env mode rev timestamp rest (flag :: acc) s'

/-- `VotingJudge.hypnotoad_vote` (vote.py lines 44-81). -/
def hypnotoadVote (env : Env) (mode rev : String) (timestamp : Int) (s : State) :
    Except Err (List (Option Nat) × State) :=
  hypnotoadLoop env mode rev timestamp (newOpinions s rev) [] s

/-- The judge state built by `VotingJudge.__init__`: the chosen mode and the
resolved revision. -/
structure Judge where
  mode : String
  revision : String
deriving DecidableEq, Repr

/-- `VotingJudge.__init__` (vote.py lines 117-143), for a string `revision`
argument: first the mode-name length check (`RuntimeError`), then the registry
check (`UserWarning`), then — only after both checks — the store is queried to
resolve the revision (`DataRevision.get`, raising `DoesNotExist` when the name
is unknown). -/
def votingJudgeInit (mode revName : String) (s : State) : Except Err Judge :=
  if max_len_mode_name < mode.length then
    .error .runtimeError
  else if mode ∉ mode_choices then
    .error .userWarning
  else if revName ∈ s.revisions then
    .ok { mode := mode, revision := revName }
  else
    .error .doesNotExist

/-- A full voting run: construct the judge, then dispatch through `_modes`
(whose only entry is `"hypnotoad" ↦ hypnotoad_vote`) with the current
timestamp. -/
def runVote (env : Env) (mode revName : String) (timestamp : Int) (s : State) :
    Except Err (List (Option Nat) × State) :=
  match votingJudgeInit mode revName s with
  | .error e => .error e
  | .ok j => hypnotoadVote env j.mode j.revision timestamp s

/-- Python `dict.update`: existing keys are overwritten in place, new keys are
appended. -/
def dictUpdate (d kvs : List (String × Py)) : List (String × Py) :=
  kvs.foldl (fun acc kv =>
    if acc.any (fun e => e.1 == kv.1) then
      acc.map (fun e => if e.1 == kv.1 then (e.1, kv.2) else e)
    else acc ++ [kv]) d

/-- `DataFlag.create_flag` (orm.py lines 107-170).  The `freq`, `inputs` and
`metadata` arguments are type-checked with `isinstance`, raising the builtin
`ValueError` (not `ValidationError`) on failure; all checks run before the
flag-type lookup and before the row insert. -/
def createFlag (s : State) (flagtype : String) (start_time : Int)
    (finish_time : Option Int) (freq instrument inputs metadata : Py) :
    Except Err FlagRow × State :=
  if !freq.isNone && !freq.isList then (.error .valueError, s)
  else
    let md1 : List (String × Py) := if freq.isNone then [] else [("freq", freq)]
    let md2 : List (String × Py) :=
      if instrument.isNone then md1 else md1 ++ [("instrument", instrument)]
    if !inputs.isNone && !inputs.isList then (.error .valueError, s)
    else
      let md3 : List (String × Py) :=
        if inputs.isNone then md2 else md2 ++ [("inputs", inputs)]
      if !metadata.isNone && !metadata.isDict then (.error .valueError, s)
      else
        let md4 : List (String × Py) :=
          match metadata with
          | .pyDict kvs => dictUpdate md3 kvs
          | _ => md3
        if flagtype ∉ s.flagTypes then (.error .doesNotExist, s)
        else
          let row : FlagRow :=
            { id := s.flags.length, ftype := flagtype, start_time := start_time,
              finish_time := finish_time, metadata := md4 }
          (.ok row, { s with flags := s.flags ++ [row] })

/-- The decision validation of `create_opinion` (orm.py line 345):
`isinstance(decision, str) and decision in cls.decision.enum_list`. -/
def decisionOk (decision : Py) : Bool :=
  match decision with
  | .pyStr d => decide (d ∈ decision_enum_list)
  | _ => false

/-- orm.py line 358: `username[0].upper() + username[1:]`.  Indexing an empty
string raises `IndexError`, hence the `Option`. -/
def capFirst (username : String) : Option String :=
  match username.data with
  | [] => none
  | c :: cs => some ⟨c.toUpper :: cs⟩

/-- The `DataFlagOpinion` row assembled by `cls.create(...)` in
`create_opinion` (orm.py lines 366-376): the client reference comes from the
preceding `get_or_create`, the decision string was already validated and
`last_edit` is initialized to `creation_time`. -/
def newOpinionRow (s : State) (uname : String) (creation_time : Int) (d : String)
    (opiniontype client_name client_version : String) (lsd : Int) (revision : String)
    (notes : Option String) : OpinionRow :=
  { id := (getOrCreateClient client_name client_version s).2.opinions.length,
    otype := opiniontype, user := uname, decision := d,
    creation_time := creation_time, last_edit := creation_time,
    client := (getOrCreateClient client_name client_version s).1,
    revision := revision, lsd := lsd, notes := notes }

/-- Appending a freshly inserted opinion row to the store. -/
def addOpinion (s : State) (row : OpinionRow) : State :=
  { s with opinions := s.opinions ++ [row] }

/-- `DataFlagOpinion.create_opinion` (orm.py lines 307-378), in source order:
decision validation (`ValidationError`), opinion-type lookup, revision lookup,
username capitalization + user lookup (each raising `DoesNotExist` when
missing), client `get_or_create` (which may write a client row), and finally
the row insert, which the unique index on `(type, user, lsd, revision)`
(orm.py lines 301-305) rejects with `IntegrityError` when a row with the same
key already exists. -/
def createOpinion (s : State) (username : String) (creation_time : Int)
    (decision : Py) (opiniontype client_name client_version : String)
    (lsd : Int) (revision : String) (notes : Option String) :
    Except Err OpinionRow × State :=
  match decision with
  | .pyStr d =>
      if d ∉ decision_enum_list then (.error .validationError, s)
      else if opiniontype ∉ s.opinionTypes then (.error .doesNotExist, s)
      else if revision ∉ s.revisions then (.error .doesNotExist, s)
      else
        match capFirst username with
        | none => (.error .indexError, s)
        | some uname =>
            if uname ∉ s.users then (.error .doesNotExist, s)
            else if (getOrCreateClient client_name client_version s).2.opinions.any
                (fun p => decide (p.otype = opiniontype) &&
                  decide (p.user = uname) && decide (p.lsd = lsd) &&
                  decide (p.revision = revision)) then
              (.error .integrityError, (getOrCreateClient client_name client_version s).2)
            else
              (.ok (newOpinionRow s uname creation_time d opiniontype client_name
                      client_version lsd revision notes),
                addOpinion (getOrCreateClient client_name client_version s).2
                  (newOpinionRow s uname creation_time d opiniontype client_name
                    client_version lsd revision notes))
  | _ => (.error .validationError, s)

/-- The column tuple of the unique index of `DataFlagOpinion` (orm.py lines
301-305). -/
def opinionKey (o : OpinionRow) : String × String × Int × String :=
  (o.otype, o.user, o.lsd, o.revision)

/-- The uniqueness invariant enforced by the unique index: no two stored
opinion rows share their `(type, user, lsd, revision)` tuple. -/
def UniqueOpinions (s : State) : Prop :=
  s.opinions.Pairwise (fun a b => opinionKey a ≠ opinionKey b)

/-- Modelled from the claim's words (C3): "the low-water mark equals the
maximum time over all existing Vote records *for this mode* minus 60, or zero
when no prior Vote exists".  Kept separate from `lowWaterMark`, which embeds
the source. -/
def lowWaterMarkClaim (mode : String) (votes : List VoteRow) : Int :=
  match lastVoteTime (votes.filter (fun v => decide (v.mode = mode))) with
  | none => 0
  | some t => t - max_vote_time

/-- Modelled from the claim's words (C3): the candidate set induced by the
claimed (mode-filtered) low-water mark. -/
def claimCandidates (mode : String) (s : State) (rev : String) : List OpinionRow :=
  s.opinions.filter (fun o =>
    decide (lowWaterMarkClaim mode s.votes ≤ o.last_edit) && decide (o.revision = rev))

/-- Modelled from the claim's words (C4): the conflict count the claim
describes — *other* opinions for the same LSD with a *different* decision,
scoped to the *same revision*. -/
def claimConflictCount (s : State) (o : OpinionRow) : Nat :=
  (s.opinions.filter (fun p => decide (p.id ≠ o.id) && decide (p.lsd = o.lsd) &&
    decide (p.decision ≠ o.decision) && decide (p.revision = o.revision))).length

/-- A concrete environment for closed scenarios: one sidereal day is mapped to
86400 time units. -/
def env0 : Env := { csdToUnix := fun l => 86400 * l, version := "0.0" }

/-- The example-scenario opinion (C1): alice's single "bad" opinion on LSD
2112 under revision "r1". -/
def c1Opinion : OpinionRow :=
  { id := 0, otype := "t", user := "Alice", decision := "bad", creation_time := 100,
    last_edit := 100, client := 0, revision := "r1", lsd := 2112, notes := none }

/-- The example-scenario store (C1): revision "r1", flag type "vote", one
candidate opinion, no votes and no flags yet. -/
def c1State : State :=
  { revisions := ["r1"], flagTypes := ["vote"], opinionTypes := ["t"],
    users := ["Alice"], clients := [], flags := [], opinions := [c1Opinion],
    votes := [], voteOpinions := [] }

/-- Contested-LSD store (C2): two opinions on LSD 7 of revision "r1" with
decisions "bad" and "good", no votes yet. -/
def c2State : State :=
  { revisions := ["r1"], flagTypes := ["vote"], opinionTypes := ["t"],
    users := ["Alice", "Bob"], clients := [], flags := [],
    opinions :=
      [{ id := 0, otype := "t", user := "Alice", decision := "bad", creation_time := 100,
         last_edit := 100, client := 0, revision := "r1", lsd := 7, notes := none },
       { id := 1, otype := "t", user := "Bob", decision := "good", creation_time := 110,
         last_edit := 110, client := 0, revision := "r1", lsd := 7, notes := none }],
    votes := [], voteOpinions := [] }

/-- An opinion edited at time 500 (C3). -/
def c3Opinion : OpinionRow :=
  { id := 0, otype := "t", user := "Alice", decision := "good", creation_time := 500,
    last_edit := 500, client := 0, revision := "r1", lsd := 3, notes := none }

/-- Store for C3's counterexample: the only existing vote belongs to a
*different* mode and has time 1000. -/
def c3State : State :=
  { revisions := ["r1"], flagTypes := ["vote"], opinionTypes := ["t"],
    users := ["Alice"], clients := [], flags := [], opinions := [c3Opinion],
    votes := [{ id := 0, time := 1000, mode := "somemode", client := 0,
                revision := "r1", flag := none, lsd := 1 }],
    voteOpinions := [] }

/-- An opinion with a negative `last_edit` (C3, zero-time edge case). -/
def c3OpinionB : OpinionRow :=
  { id := 0, otype := "t", user := "Alice", decision := "good", creation_time := -30,
    last_edit := -30, client := 0, revision := "r1", lsd := 3, notes := none }

/-- Store for C3's zero-time edge case: a hypnotoad vote exists with time
exactly 0 (falsy in Python, so the code does not subtract the grace
window). -/
def c3StateZero : State :=
  { revisions := ["r1"], flagTypes := ["vote"], opinionTypes := ["t"],
    users := ["Alice"], clients := [], flags := [], opinions := [c3OpinionB],
    votes := [{ id := 0, time := 0, mode := "hypnotoad", client := 0,
                revision := "r1", flag := none, lsd := 1 }],
    voteOpinions := [] }

/-- Cross-revision pair (C4): "bad" under revision "r1". -/
def c4OpinionR1 : OpinionRow :=
  { id := 0, otype := "t", user := "Alice", decision := "bad", creation_time := 100,
    last_edit := 100, client := 0, revision := "r1", lsd := 5, notes := none }

/-- Cross-revision pair (C4): "good" for the same LSD, but under revision
"r2". -/
def c4OpinionR2 : OpinionRow :=
  { id := 1, otype := "t", user := "Bob", decision := "good", creation_time := 100,
    last_edit := 100, client := 0, revision := "r2", lsd := 5, notes := none }

/-- Store for C4's counterexample: same LSD, different decisions, different
revisions. -/
def c4State : State :=
  { revisions := ["r1", "r2"], flagTypes := ["vote"], opinionTypes := ["t"],
    users := ["Alice", "Bob"], clients := [], flags := [],
    opinions := [c4OpinionR1, c4OpinionR2], votes := [], voteOpinions := [] }

/-- Store for C5's counterexample: a single uncontested "good" opinion. -/
def c5State : State :=
  { revisions := ["r1"], flagTypes := ["vote"], opinionTypes := ["t"],
    users := ["Alice"], clients := [], flags := [],
    opinions :=
      [{ id := 0, otype := "t", user := "Alice", decision := "good", creation_time := 100,
         last_edit := 100, client := 0, revision := "r1", lsd := 9, notes := none }],
    votes := [], voteOpinions := [] }

/-- Minimal store for C6's witness: revision "r1" exists, nothing else. -/
def c6State : State :=
  { revisions := ["r1"], flagTypes := [], opinionTypes := [], users := [],
    clients := [], flags := [], opinions := [], votes := [], voteOpinions := [] }

/-- The stored opinion of C7's counterexample. -/
def c7Opinion : OpinionRow :=
  { id := 0, otype := "t", user := "Alice", decision := "bad", creation_time := 10,
    last_edit := 10, client := 0, revision := "r", lsd := 5, notes := none }

/-- Store for C7: one opinion with key ("t", "Alice", 5, "r") already exists,
and the client row already exists (so the failed insert leaves the store
exactly as it was). -/
def c7State : State :=
  { revisions := ["r"], flagTypes := [], opinionTypes := ["t"],
    users := ["Alice"], clients := [{ id := 0, client_name := "c", client_version := "v" }],
    flags := [], opinions := [c7Opinion], votes := [], voteOpinions := [] }

/-- Minimal store for C8: flag type "vote" exists. -/
def c8State : State :=
  { revisions := [], flagTypes := ["vote"], opinionTypes := [], users := [],
    clients := [], flags := [], opinions := [], votes := [], voteOpinions := [] }

/-- Minimal store for C9: revision "r1" exists. -/
def c9State : State :=
  { revisions := ["r1"], flagTypes := [], opinionTypes := [], users := [],
    clients := [], flags := [], opinions := [], votes := [], voteOpinions := [] }

/-- Store for C10's witness: the user table contains only the all-lowercase
name "alice". -/
def c10State : State :=
  { revisions := ["r"], flagTypes := [], opinionTypes := ["t"], users := ["alice"],
    clients := [], flags := [], opinions := [], votes := [], voteOpinions := [] }

/-! ## Helper lemmas -/

theorem mem_opinions_of_mem_newOpinions {s : State} {rev : String} {o : OpinionRow}
    (h : o ∈ newOpinions s rev) : o ∈ s.opinions := by
  simp only [newOpinions] at h
  exact (List.mem_filter.mp h).1

theorem moreOpinions_pos {s : State} {o p : OpinionRow} (hp : p ∈ s.opinions)
    (hlsd : p.lsd = o.lsd) : moreOpinions s o ≠ 0 := by
  have hmem : p ∈ s.opinions.filter (fun q => decide (q.lsd = o.lsd)) :=
    List.mem_filter.mpr ⟨hp, by simp [hlsd]⟩
  intro hlen
  simp only [moreOpinions] at hlen
  rw [List.length_eq_zero] at hlen
  rw [hlen] at hmem
  exact List.not_mem_nil p hmem

theorem hypnotoadLoop_skip_all (env : Env) (mode rev : String) (ts : Int) :
    ∀ (cands : List OpinionRow) (acc : List (Option Nat)) (s : State),
      (∀ o ∈ cands, o ∈ s.opinions) →
      hypnotoadLoop env mode rev ts cands acc s = .ok (acc.reverse, s) := by
  intro cands
  induction cands with
  | nil => intro acc s _; rfl
  | cons o rest ih =>
      intro acc s h
      have ho : o ∈ s.opinions := h o (List.mem_cons_self o rest)
      have hne : moreOpinions s o ≠ 0 := moreOpinions_pos ho rfl
      simp only [hypnotoadLoop, if_pos hne]
      exact ih acc s (fun p hp => h p (List.mem_cons_of_mem o hp))

theorem hypnotoad_vote_noop (env : Env) (mode rev : String) (ts : Int) (s : State) :
    hypnotoadVote env mode rev ts s = .ok ([], s) :=
  hypnotoadLoop_skip_all env mode rev ts (newOpinions s rev) [] s
    (fun _ ho => mem_opinions_of_mem_newOpinions ho)

theorem votingJudgeInit_accepts {mode rev : String} {s : State}
    (h1 : mode.length ≤ max_len_mode_name) (h2 : mode ∈ mode_choices)
    (h3 : rev ∈ s.revisions) :
    votingJudgeInit mode rev s = .ok { mode := mode, revision := rev } := by
  unfold votingJudgeInit
  rw [if_neg (not_lt.mpr h1), if_neg (not_not_intro h2), if_pos h3]

theorem runVote_trivial (env : Env) {mode rev : String} {s : State}
    (h1 : mode.length ≤ max_len_mode_name) (h2 : mode ∈ mode_choices)
    (h3 : rev ∈ s.revisions) (ts : Int) :
    runVote env mode rev ts s = .ok ([], s) := by
  unfold runVote
  rw [votingJudgeInit_accepts h1 h2 h3]
  exact hypnotoad_vote_noop env mode rev ts s

theorem runVote_ok_inv {env : Env} {mode rev : String} {ts : Int} {s s1 : State}
    {fs : List (Option Nat)} (h : runVote env mode rev ts s = .ok (fs, s1)) :
    fs = [] ∧ s1 = s ∧ mode.length ≤ max_len_mode_name ∧ mode ∈ mode_choices ∧
      rev ∈ s.revisions := by
  unfold runVote votingJudgeInit at h
  by_cases h1 : max_len_mode_name < mode.length
  · rw [if_pos h1] at h; simp at h
  · rw [if_neg h1] at h
    by_cases h2 : mode ∉ mode_choices
    · rw [if_pos h2] at h; simp at h
    · rw [if_neg h2] at h
      by_cases h3 : rev ∈ s.revisions
      · rw [if_pos h3] at h
        have h' : hypnotoadVote env mode rev ts s = .ok (fs, s1) := h
        rw [hypnotoad_vote_noop] at h'
        have hfs : ([] : List (Option Nat)) = fs ∧ s = s1 := by
          have := Except.ok.inj h'
          exact ⟨congrArg Prod.fst this, congrArg Prod.snd this⟩
        exact ⟨hfs.1.symm, hfs.2.symm, not_lt.mp h1, not_not.mp h2, h3⟩
      · rw [if_neg h3] at h; simp at h

theorem lastVoteTime_eq_none_iff (vs : List VoteRow) : lastVoteTime vs = none ↔ vs = [] := by
  induction vs with
  | nil => simp [lastVoteTime]
  | cons v vs ih =>
      simp only [lastVoteTime]
      cases h : lastVoteTime vs <;> simp

theorem lastVoteTime_spec {vs : List VoteRow} {m : Int} (h : lastVoteTime vs = some m) :
    m ∈ vs.map VoteRow.time ∧ ∀ t ∈ vs.map VoteRow.time, t ≤ m := by
  induction vs generalizing m with
  | nil => simp [lastVoteTime] at h
  | cons v vs ih =>
      simp only [lastVoteTime] at h
      cases hv : lastVoteTime vs with
      | none =>
          rw [hv] at h
          have hnil : vs = [] := (lastVoteTime_eq_none_iff vs).mp hv
          subst hnil
          have hm : v.time = m := Option.some.inj h
          subst hm
          simp
      | some m' =>
          rw [hv] at h
          have hm : max v.time m' = m := Option.some.inj h
          obtain ⟨hmem, hub⟩ := ih hv
          constructor
          · rcases max_choice v.time m' with hmax | hmax
            · rw [hmax] at hm
              subst hm
              simp
            · rw [hmax] at hm
              subst hm
              simp only [List.map_cons, List.mem_cons]
              exact Or.inr hmem
          · intro t ht
            subst hm
            rcases List.mem_cons.mp ht with rfl | ht'
            · exact le_max_left _ _
            · exact le_trans (hub t ht') (le_max_right _ _)

theorem lastVoteTime_of_max {vs : List VoteRow} {m : Int}
    (hmem : m ∈ vs.map VoteRow.time) (hub : ∀ t ∈ vs.map VoteRow.time, t ≤ m) :
    lastVoteTime vs = some m := by
  cases hv : lastVoteTime vs with
  | none =>
      rw [lastVoteTime_eq_none_iff] at hv
      subst hv
      simp at hmem
  | some m' =>
      obtain ⟨hmem', hub'⟩ := lastVoteTime_spec hv
      have h1 : m ≤ m' := hub' m hmem
      have h2 : m' ≤ m := hub m' hmem'
      rw [le_antisymm h1 h2]

/-! ## Claim theorems -/

/-- Claim C1 (code evaluated at the failing input).  The example scenario of the
claim: user alice holds the single Opinion ("bad", LSD 2112, revision "r1")
and no disagreeing opinion exists.  The claim requires the run to create
exactly one Flag and one Vote; the code creates neither and returns the empty
list, because the conflict query — whose two conditions are combined with the
Python `and` instead of peewee's `&` — collapses to `lsd == opinion.lsd` and
counts the candidate opinion itself, so every candidate is treated as
contested. -/
theorem C1_single_bad_opinion_run :
    runVote env0 "hypnotoad" "r1" 1000 c1State = .ok ([], c1State) ∧
    c1State.flags = [] ∧ c1State.votes = [] ∧ c1State.voteOpinions = [] :=
  ⟨rfl, rfl, rfl, rfl⟩

/-- Claim C2 (code evaluated at the failing input).  Two opinions "bad" and
"good" for the same LSD 7 of revision "r1": the claim requires each evaluated
Opinion to receive exactly one Vote (with a null flag reference, given the
disagreement).  The code creates no Vote at all: `_translate_single_opinion`
— the only place Votes are written — is called only when the conflict count is
zero, so contested candidates are skipped entirely and will be reconsidered by
every later run. -/
theorem C2_contested_lsd_run :
    runVote env0 "hypnotoad" "r1" 200 c2State = .ok ([], c2State) ∧
    c2State.votes = [] ∧ c2State.voteOpinions = [] :=
  ⟨rfl, rfl, rfl⟩

/-- Claim C3 (amended).  The candidate set of a run is exactly the set of
opinions of the requested revision whose `last_edit` is at or above the
low-water mark, where the low-water mark is derived from the maximum `time`
over *all* existing Vote rows regardless of their mode: it is that maximum
minus 60 when the maximum is nonzero, and 0 when no Vote exists at all or the
maximum is exactly 0 (Python falsiness). -/
theorem C3_candidate_set (s : State) (rev : String) (o : OpinionRow) :
    o ∈ newOpinions s rev ↔
      o ∈ s.opinions ∧ o.revision = rev ∧
        ((s.votes = [] ∧ 0 ≤ o.last_edit) ∨
          (∃ m, m ∈ s.votes.map VoteRow.time ∧ (∀ t ∈ s.votes.map VoteRow.time, t ≤ m) ∧
            (if m = 0 then 0 else m - max_vote_time) ≤ o.last_edit)) := by
  simp only [newOpinions, List.mem_filter, Bool.and_eq_true, decide_eq_true_eq]
  constructor
  · rintro ⟨hmem, hle, hrev⟩
    refine ⟨hmem, hrev, ?_⟩
    unfold lowWaterMark at hle
    cases hv : lastVoteTime s.votes with
    | none =>
        rw [hv] at hle
        exact Or.inl ⟨(lastVoteTime_eq_none_iff _).mp hv, hle⟩
    | some m =>
        rw [hv] at hle
        obtain ⟨hm, hub⟩ := lastVoteTime_spec hv
        exact Or.inr ⟨m, hm, hub, hle⟩
  · rintro ⟨hmem, hrev, hcase⟩
    refine ⟨hmem, ?_, hrev⟩
    unfold lowWaterMark
    rcases hcase with ⟨hnil, hle⟩ | ⟨m, hm, hub, hle⟩
    · rw [hnil]
      simpa [lastVoteTime] using hle
    · rw [lastVoteTime_of_max hm hub]
      exact hle

/-- Claim C3 (counterexample to the claim as stated).  First store: the only
Vote row belongs to a different mode and has time 1000; the claim (filtering
by mode) predicts low-water mark 0 and candidate set `[c3Opinion]`
(last_edit 500), but the code computes 1000 - 60 = 940 and an empty candidate
set.  Second store: a "hypnotoad" Vote with time exactly 0; the claim predicts
low-water mark -60 and candidate `[c3OpinionB]` (last_edit -30), but 0 is
falsy in Python so the code uses 0 and excludes the opinion. -/
theorem C3_counterexample :
    lowWaterMark c3State.votes = 940 ∧
    lowWaterMarkClaim "hypnotoad" c3State.votes = 0 ∧
    newOpinions c3State "r1" = [] ∧
    claimCandidates "hypnotoad" c3State "r1" = [c3Opinion] ∧
    lowWaterMark c3StateZero.votes = 0 ∧
    lowWaterMarkClaim "hypnotoad" c3StateZero.votes = -60 ∧
    newOpinions c3StateZero "r1" = [] ∧
    claimCandidates "hypnotoad" c3StateZero "r1" = [c3OpinionB] :=
  ⟨rfl, rfl, rfl, rfl, rfl, rfl, rfl, rfl⟩

/-- Claim C4 (amended).  The conflict check does not isolate revisions (nor
decisions, nor the candidate itself): the Python `and` collapses the WHERE
clause to `lsd == opinion.lsd`, so *any* stored opinion with the candidate's
LSD — in particular one belonging to a different revision — makes the
conflict count nonzero, and consequently no run ever creates a flag. -/
theorem C4_no_cross_revision_independence (s : State) (o p : OpinionRow)
    (hp : p ∈ s.opinions) (hlsd : p.lsd = o.lsd) :
    moreOpinions s o ≠ 0 ∧
    ∀ env mode rev ts, hypnotoadVote env mode rev ts s = .ok ([], s) :=
  ⟨moreOpinions_pos hp hlsd, fun env mode rev ts => hypnotoad_vote_noop env mode rev ts s⟩

/-- Claim C4 (witness): the cross-revision pair of `c4State` instantiates the
amended claim. -/
theorem C4_witness :
    moreOpinions c4State c4OpinionR1 ≠ 0 ∧
    ∀ env mode rev ts, hypnotoadVote env mode rev ts c4State = .ok ([], c4State) :=
  C4_no_cross_revision_independence c4State c4OpinionR1 c4OpinionR2 (by decide) rfl

/-- Claim C4 (counterexample to the claim as stated).  `c4OpinionR1` ("bad",
revision "r1", LSD 5) has no conflicting opinion in the claim's sense
(`claimConflictCount = 0`: the only other opinion with LSD 5 belongs to
revision "r2"), so by the claim it must resolve independently and produce a
flag; but the code's conflict count is 2 and the run on "r1" creates no
flag. -/
theorem C4_counterexample :
    claimConflictCount c4State c4OpinionR1 = 0 ∧
    moreOpinions c4State c4OpinionR1 = 2 ∧
    runVote env0 "hypnotoad" "r1" 300 c4State = .ok ([], c4State) ∧
    c4State.flags = [] :=
  ⟨rfl, rfl, rfl, rfl⟩

/-- Claim C5 (amended).  The sequence returned by a hypnotoad run contains
exactly the newly created Flags (there are none — the state is returned
unchanged, so no flag, vote or vote-opinion row is written), and in
particular no null entry appears: candidates with decision "good"/"unsure"
produce neither a Flag nor a Vote, because no candidate ever passes the
conflict check. -/
theorem C5_returned_sequence (env : Env) (mode rev : String) (ts : Int) (s : State) :
    ∃ s', hypnotoadVote env mode rev ts s = .ok ([], s') ∧
      s'.flags = s.flags ∧ s'.votes = s.votes ∧ s'.voteOpinions = s.voteOpinions :=
  ⟨s, hypnotoad_vote_noop env mode rev ts s, rfl, rfl, rfl⟩

/-- Claim C5 (counterexample to the claim as stated).  A single "good" opinion
is a candidate of the run on "r1"; the claim's parenthesis states such a
candidate "produces a Vote with no resulting Flag", but the run writes no
Vote (and no VoteOpinion) at all. -/
theorem C5_counterexample :
    runVote env0 "hypnotoad" "r1" 400 c5State = .ok ([], c5State) ∧
    c5State.votes = [] ∧ c5State.voteOpinions = [] :=
  ⟨rfl, rfl, rfl⟩

/-- Claim C6 (confirmed).  If a run for some mode and revision succeeds, an
immediately following run with the same mode and revision (and no opinion
changes in between) returns the empty flag sequence and leaves the store
untouched — zero new Flags and zero new Votes.  (This holds degenerately:
every hypnotoad run returns an empty sequence and writes nothing, because the
collapsed conflict query suppresses every candidate.) -/
theorem C6_second_run_empty (env : Env) (mode rev : String) (ts1 ts2 : Int)
    (s s1 : State) (fs1 : List (Option Nat))
    (h : runVote env mode rev ts1 s = .ok (fs1, s1)) :
    runVote env mode rev ts2 s1 = .ok ([], s1) := by
  obtain ⟨-, hs, h1, h2, h3⟩ := runVote_ok_inv h
  subst hs
  exact runVote_trivial env h1 h2 h3 ts2

/-- Claim C6 (witness): a first run on `c6State` succeeds, and the second run
returns the empty sequence on the unchanged store. -/
theorem C6_witness :
    runVote env0 "hypnotoad" "r1" 2 c6State = .ok ([], c6State) :=
  C6_second_run_empty env0 "hypnotoad" "r1" 1 2 c6State c6State [] rfl

theorem getOrCreateClient_opinions (cn cv : String) (s : State) :
    ((getOrCreateClient cn cv s).2).opinions = s.opinions := by
  unfold getOrCreateClient
  cases s.clients.find? (fun c => c.client_name == cn && c.client_version == cv) with
  | none => rfl
  | some c => rfl

theorem opinion_match_iff (p : OpinionRow) (ot uname : String) (lsd : Int) (rev : String) :
    (decide (p.otype = ot) && decide (p.user = uname) && decide (p.lsd = lsd) &&
      decide (p.revision = rev)) = true ↔ opinionKey p = (ot, uname, lsd, rev) := by
  simp [opinionKey, Prod.ext_iff, and_assoc]

theorem uniqueOpinions_client (cn cv : String) (s : State) (hu : UniqueOpinions s) :
    UniqueOpinions (getOrCreateClient cn cv s).2 := by
  unfold UniqueOpinions
  rw [getOrCreateClient_opinions]
  exact hu

theorem uniqueOpinions_insert (s : State) (un : String) (ct : Int) (d : String)
    (ot cn cv : String) (lsd : Int) (rev : String) (nts : Option String)
    (hu : UniqueOpinions s)
    (hany : ¬ ((getOrCreateClient cn cv s).2.opinions.any
        (fun p => decide (p.otype = ot) && decide (p.user = un) &&
          decide (p.lsd = lsd) && decide (p.revision = rev)) = true)) :
    UniqueOpinions (addOpinion (getOrCreateClient cn cv s).2
      (newOpinionRow s un ct d ot cn cv lsd rev nts)) := by
  show List.Pairwise (fun a b => opinionKey a ≠ opinionKey b)
    ((getOrCreateClient cn cv s).2.opinions ++ [newOpinionRow s un ct d ot cn cv lsd rev nts])
  rw [getOrCreateClient_opinions]
  rw [List.pairwise_append]
  refine ⟨hu, List.pairwise_singleton _ _, ?_⟩
  intro a ha b hb
  rw [List.mem_singleton] at hb
  subst hb
  intro hkeyeq
  apply hany
  refine List.any_eq_true.mpr ⟨a, ?_, ?_⟩
  · rw [getOrCreateClient_opinions]
    exact ha
  · exact (opinion_match_iff a ot un lsd rev).mpr hkeyeq

/-- Claim C7 (amended).  The unique index on `(type, user, lsd, revision)` keeps
the store free of duplicate opinion keys, and an attempt to create a second
Opinion with an existing key fails with `IntegrityError` while leaving the
opinion table unchanged — it is neither an insert of a duplicate nor an
update of the existing row. -/
theorem C7_unique_index (s : State) (username uname : String) (ct : Int) (dec : Py)
    (ot cn cv : String) (lsd : Int) (rev : String) (nts : Option String)
    (hu : UniqueOpinions s) :
    UniqueOpinions (createOpinion s username ct dec ot cn cv lsd rev nts).2 ∧
    (decisionOk dec = true → ot ∈ s.opinionTypes → rev ∈ s.revisions →
      capFirst username = some uname → uname ∈ s.users →
      (∃ q ∈ s.opinions, opinionKey q = (ot, uname, lsd, rev)) →
      (createOpinion s username ct dec ot cn cv lsd rev nts).1 = .error .integrityError ∧
      (createOpinion s username ct dec ot cn cv lsd rev nts).2.opinions = s.opinions) := by
  constructor
  · cases dec with
    | pyNone => exact hu
    | pyBool b => exact hu
    | pyInt n => exact hu
    | pyList xs => exact hu
    | pyDict kvs => exact hu
    | pyStr d =>
        simp only [createOpinion]
        by_cases h1 : d ∉ decision_enum_list
        · rw [if_pos h1]
          exact hu
        · rw [if_neg h1]
          by_cases h2 : ot ∉ s.opinionTypes
          · rw [if_pos h2]
            exact hu
          · rw [if_neg h2]
            by_cases h3 : rev ∉ s.revisions
            · rw [if_pos h3]
              exact hu
            · rw [if_neg h3]
              cases hcap : capFirst username with
              | none =>
                  simp only [hcap]
                  exact hu
              | some un =>
                  simp only [hcap]
                  by_cases h4 : un ∉ s.users
                  · rw [if_pos h4]
                    exact hu
                  · rw [if_neg h4]
                    by_cases h5 : ((getOrCreateClient cn cv s).2.opinions.any
                        (fun p => decide (p.otype = ot) && decide (p.user = un) &&
                          decide (p.lsd = lsd) && decide (p.revision = rev))) = true
                    · rw [if_pos h5]
                      exact uniqueOpinions_client cn cv s hu
                    · rw [if_neg h5]
                      exact uniqueOpinions_insert s un ct d ot cn cv lsd rev nts hu h5
  · intro hdec hot hrev hcap huser hex
    obtain ⟨d, rfl⟩ : ∃ d, dec = Py.pyStr d := by
      cases dec with
      | pyStr d => exact ⟨d, rfl⟩
      | pyNone => simp [decisionOk] at hdec
      | pyBool b => simp [decisionOk] at hdec
      | pyInt n => simp [decisionOk] at hdec
      | pyList xs => simp [decisionOk] at hdec
      | pyDict kvs => simp [decisionOk] at hdec
    have hdenum : d ∈ decision_enum_list := by
      simpa [decisionOk] using hdec
    have hd1 : ¬ d ∉ decision_enum_list := not_not_intro hdenum
    obtain ⟨q, hq, hkey⟩ := hex
    have hany : ((getOrCreateClient cn cv s).2.opinions.any
        (fun p => decide (p.otype = ot) && decide (p.user = uname) &&
          decide (p.lsd = lsd) && decide (p.revision = rev))) = true := by
      refine List.any_eq_true.mpr ⟨q, ?_, ?_⟩
      · rw [getOrCreateClient_opinions]
        exact hq
      · exact (opinion_match_iff q ot uname lsd rev).mpr hkey
    refine ⟨?_, ?_⟩
    · simp only [createOpinion, if_neg hd1, if_neg (not_not_intro hot),
        if_neg (not_not_intro hrev), hcap, if_neg (not_not_intro huser), if_pos hany]
    · simp only [createOpinion, if_neg hd1, if_neg (not_not_intro hot),
        if_neg (not_not_intro hrev), hcap, if_neg (not_not_intro huser), if_pos hany]
      exact getOrCreateClient_opinions cn cv s

/-- Claim C7 (witness): on `c7State` — which already holds the opinion with key
("t", "Alice", 5, "r") — a second create with the same key fails with
`IntegrityError` and leaves the opinion table unchanged. -/
theorem C7_witness :
    (createOpinion c7State "alice" 20 (Py.pyStr "good") "t" "c" "v" 5 "r" none).1
        = .error .integrityError ∧
    (createOpinion c7State "alice" 20 (Py.pyStr "good") "t" "c" "v" 5 "r" none).2.opinions
        = c7State.opinions :=
  (C7_unique_index c7State "alice" "Alice" 20 (Py.pyStr "good") "t" "c" "v" 5 "r" none
      (by unfold UniqueOpinions; decide)).2 (by decide) (by decide) (by decide) (by decide)
    (by decide)
    ⟨c7Opinion, by decide, by decide⟩

/-- Claim C7 (counterexample to the claim as stated).  The claim says a second
create for an existing `(type, user, lsd, revision)` "results in an update of
the existing Opinion"; here the existing opinion has decision "bad" and a
second create with decision "good" raises `IntegrityError` and changes
nothing — the stored decision remains "bad" and `last_edit` remains 10. -/
theorem C7_counterexample :
    createOpinion c7State "Alice" 20 (Py.pyStr "good") "t" "c" "v" 5 "r" none
      = (.error .integrityError, c7State) ∧
    c7State.opinions.map OpinionRow.decision = ["bad"] ∧
    c7State.opinions.map OpinionRow.last_edit = [10] :=
  ⟨rfl, rfl, rfl⟩

/-- Claim C8 (amended).  The validation behaviour of the creation operations,
with the exception classes the code actually raises: an invalid `decision`
(non-string or outside {good, bad, unsure}) makes `create_opinion` fail with
`ValidationError`; a non-list `freq`, a non-list `inputs` or a non-dict
`metadata` make `create_flag` fail with the builtin `ValueError`.  In every
case the error is raised synchronously and the store is returned unchanged —
no write happens before the error. -/
theorem C8_validation_errors :
    (∀ (s : State) (username : String) (ct : Int) (dec : Py) (ot cn cv : String)
        (lsd : Int) (rev : String) (nts : Option String), decisionOk dec = false →
      createOpinion s username ct dec ot cn cv lsd rev nts = (.error .validationError, s)) ∧
    (∀ (s : State) (ft : String) (st : Int) (fin : Option Int) (freq instr inputs md : Py),
      freq.isNone = false → freq.isList = false →
      createFlag s ft st fin freq instr inputs md = (.error .valueError, s)) ∧
    (∀ (s : State) (ft : String) (st : Int) (fin : Option Int) (freq instr inputs md : Py),
      (freq.isNone || freq.isList) = true →
      inputs.isNone = false → inputs.isList = false →
      createFlag s ft st fin freq instr inputs md = (.error .valueError, s)) ∧
    (∀ (s : State) (ft : String) (st : Int) (fin : Option Int) (freq instr inputs md : Py),
      (freq.isNone || freq.isList) = true → (inputs.isNone || inputs.isList) = true →
      md.isNone = false → md.isDict = false →
      createFlag s ft st fin freq instr inputs md = (.error .valueError, s)) := by
  refine ⟨?_, ?_, ?_, ?_⟩
  · intro s username ct dec ot cn cv lsd rev nts hdec
    cases dec with
    | pyStr d =>
        have hd : d ∉ decision_enum_list := by
          simpa [decisionOk] using hdec
        simp only [createOpinion, if_pos hd]
    | pyNone => rfl
    | pyBool b => rfl
    | pyInt n => rfl
    | pyList xs => rfl
    | pyDict kvs => rfl
  · intro s ft st fin freq instr inputs md h1 h2
    simp [createFlag, h1, h2]
  · intro s ft st fin freq instr inputs md hfreq h1 h2
    have hf : (!freq.isNone && !freq.isList) = false := by
      cases hq : freq.isNone <;> simp_all
    simp [createFlag, hf, h1, h2]
  · intro s ft st fin freq instr inputs md hfreq hinputs h1 h2
    have hf : (!freq.isNone && !freq.isList) = false := by
      cases hq : freq.isNone <;> simp_all
    have hi : (!inputs.isNone && !inputs.isList) = false := by
      cases hq : inputs.isNone <;> simp_all
    simp [createFlag, hf, hi, h1, h2]

/-- Claim C8 (witness): concrete invalid inputs for each validation rule — an
out-of-enum decision, an integer `freq`, a string `inputs` and a list
`metadata` — each rejected synchronously with the store unchanged. -/
theorem C8_witness :
    createOpinion c8State "u" 0 (Py.pyStr "maybe") "t" "c" "v" 1 "r" none
        = (.error .validationError, c8State) ∧
    createFlag c8State "vote" 0 (some 1) (Py.pyInt 5) Py.pyNone Py.pyNone Py.pyNone
        = (.error .valueError, c8State) ∧
    createFlag c8State "vote" 0 (some 1) Py.pyNone Py.pyNone (Py.pyStr "x") Py.pyNone
        = (.error .valueError, c8State) ∧
    createFlag c8State "vote" 0 (some 1) Py.pyNone Py.pyNone Py.pyNone (Py.pyList [])
        = (.error .valueError, c8State) :=
  ⟨C8_validation_errors.1 c8State "u" 0 (Py.pyStr "maybe") "t" "c" "v" 1 "r" none rfl,
   C8_validation_errors.2.1 c8State "vote" 0 (some 1) (Py.pyInt 5) Py.pyNone Py.pyNone
     Py.pyNone rfl rfl,
   C8_validation_errors.2.2.1 c8State "vote" 0 (some 1) Py.pyNone Py.pyNone (Py.pyStr "x")
     Py.pyNone rfl rfl rfl,
   C8_validation_errors.2.2.2 c8State "vote" 0 (some 1) Py.pyNone Py.pyNone Py.pyNone
     (Py.pyList []) rfl rfl rfl rfl⟩

/-- Claim C8 (counterexample to the claim as stated).  A non-list `freq` passed
to `create_flag` raises the builtin `ValueError` (orm.py line 145), which is
not the `ValidationError` class the claim names. -/
theorem C8_counterexample :
    createFlag c8State "vote" 0 (some 1) (Py.pyInt 5) (Py.pyStr "chime") Py.pyNone Py.pyNone
      = (.error .valueError, c8State) ∧ Err.valueError ≠ Err.validationError :=
  ⟨rfl, by decide⟩

/-- Claim C9 (amended).  Constructing a `VotingJudge` with a mode name longer
than 32 characters fails with the builtin `RuntimeError`; with a name of
admissible length that is not in the mode registry it fails with
`UserWarning`.  Both failures are decided before the store is touched: the
result is the same for every store `s`. -/
theorem C9_init_errors (mode : String) :
    (max_len_mode_name < mode.length →
      ∀ (revName : String) (s : State),
        votingJudgeInit mode revName s = .error .runtimeError) ∧
    (mode.length ≤ max_len_mode_name → mode ∉ mode_choices →
      ∀ (revName : String) (s : State),
        votingJudgeInit mode revName s = .error .userWarning) := by
  constructor
  · intro h revName s
    unfold votingJudgeInit
    rw [if_pos h]
  · intro h1 h2 revName s
    unfold votingJudgeInit
    rw [if_neg (not_lt.mpr h1), if_pos h2]

/-- Claim C9 (witness): a 33-character mode name is rejected with
`RuntimeError`, and the unregistered mode "foo" with `UserWarning`. -/
theorem C9_witness :
    votingJudgeInit "aaaaaaaaaaaaaaaaaaaaaaaaaaaaaaaaa" "r1" c9State
        = .error .runtimeError ∧
    votingJudgeInit "foo" "r1" c9State = .error .userWarning :=
  ⟨(C9_init_errors "aaaaaaaaaaaaaaaaaaaaaaaaaaaaaaaaa").1 (by decide) "r1" c9State,
   (C9_init_errors "foo").2 (by decide) (by decide) "r1" c9State⟩

/-- Claim C9 (counterexample to the claim as stated).  The code raises the
builtin exceptions `UserWarning` (unregistered mode, vote.py line 125) and
`RuntimeError` (mode name longer than 32 characters, vote.py line 119) —
neither is the `UnknownModeError` / `InvalidConfigurationError` class named by
the claim. -/
theorem C9_counterexample :
    votingJudgeInit "foo" "r1" c9State = .error .userWarning ∧
    Err.userWarning ≠ Err.unknownModeError ∧
    votingJudgeInit "aaaaaaaaaaaaaaaaaaaaaaaaaaaaaaaaa" "r1" c9State
        = .error .runtimeError ∧
    Err.runtimeError ≠ Err.invalidConfigurationError :=
  ⟨rfl, by decide, rfl, by decide⟩

/-- Claim C10 (confirmed).  `create_opinion` uppercases the first character of
the username (orm.py line 358) before the `MediaWikiUser` lookup: when the
capitalized name is not in the user table the creation fails with a
`DoesNotExist` error and writes nothing, and when creation succeeds the
stored opinion is attributed to the capitalized name.  In particular a user
stored only in all-lowercase form is never matched. -/
theorem C10_capitalized_user_lookup (s : State) (username uname : String) (ct : Int)
    (dec : Py) (ot cn cv : String) (lsd : Int) (rev : String) (nts : Option String)
    (hdec : decisionOk dec = true) (hot : ot ∈ s.opinionTypes) (hrev : rev ∈ s.revisions)
    (hcap : capFirst username = some uname) :
    (uname ∉ s.users →
      createOpinion s username ct dec ot cn cv lsd rev nts = (.error .doesNotExist, s)) ∧
    (∀ (row : OpinionRow) (s1 : State),
      createOpinion s username ct dec ot cn cv lsd rev nts = (.ok row, s1) →
      row.user = uname) := by
  obtain ⟨d, rfl⟩ : ∃ d, dec = Py.pyStr d := by
    cases dec with
    | pyStr d => exact ⟨d, rfl⟩
    | pyNone => simp [decisionOk] at hdec
    | pyBool b => simp [decisionOk] at hdec
    | pyInt n => simp [decisionOk] at hdec
    | pyList xs => simp [decisionOk] at hdec
    | pyDict kvs => simp [decisionOk] at hdec
  have hdenum : d ∈ decision_enum_list := by
    simpa [decisionOk] using hdec
  have hd1 : ¬ d ∉ decision_enum_list := not_not_intro hdenum
  constructor
  · intro huser
    simp only [createOpinion, if_neg hd1, if_neg (not_not_intro hot),
      if_neg (not_not_intro hrev), hcap, if_pos huser]
  · intro row s1 h
    simp only [createOpinion, if_neg hd1, if_neg (not_not_intro hot),
      if_neg (not_not_intro hrev), hcap] at h
    split at h
    · simp at h
    · split at h
      · simp at h
      · injection h with hfst hsnd
        have hrow := Except.ok.inj hfst
        rw [← hrow]
        rfl

/-- Claim C10 (witness): the store knows only the all-lowercase user "alice";
creating an opinion for username "alice" looks up "Alice" and fails with the
not-found error, writing nothing. -/
theorem C10_witness :
    createOpinion c10State "alice" 7 (Py.pyStr "bad") "t" "c" "v" 4 "r" none
      = (.error .doesNotExist, c10State) :=
  (C10_capitalized_user_lookup c10State "alice" "Alice" 7 (Py.pyStr "bad") "t" "c" "v" 4
      "r" none rfl (by decide) (by decide) (by decide)).1 (by decide)

/-- Claim C3 (witness): the amended characterization instantiated on the
example store — with no votes at all, alice's opinion (last_edit 100 ≥ 0) is a
candidate of the run on "r1". -/
theorem C3_witness : c1Opinion ∈ newOpinions c1State "r1" :=
  (C3_candidate_set c1State "r1" c1Opinion).mpr
    ⟨by decide, by decide, Or.inl ⟨by decide, by decide⟩⟩

/-- Claim C5 (witness): the amended statement instantiated on the store with a
single "good" opinion. -/
theorem C5_witness :
    ∃ s', hypnotoadVote env0 "hypnotoad" "r1" 123 c5State = .ok ([], s') ∧
      s'.flags = c5State.flags ∧ s'.votes = c5State.votes ∧
      s'.voteOpinions = c5State.voteOpinions :=
  C5_returned_sequence env0 "hypnotoad" "r1" 123 c5State
